import Mathlib

/-!
Shallow embedding of the omnivore-highlight-label-uuid webhook handlers.

The repository holds four near-duplicate edge-function handlers:
* `src/api/annotate.ts` — "created" events: create-label then
  add-label-to-highlight, with GraphQL `errors` checks and an API-key check;
* `src/unnamed/part_000` — "HIGHLIGHT_CREATED" events: same two mutations but
  with no API-key check (the key defaults to the empty string) and no
  `errors` checks;
* `src/unnamed/part_001` — annotation variant: classify LABEL_ADDED /
  PAGE_CREATED by payload presence, fetch the article, call the completion
  service, create or update a NOTE highlight, attach the correlation tag;
* `src/unnamed/part_002` — "created" events: create-label then
  set-labels-for-highlight wrapped in a 3-attempt retry loop with
  `retries * 2000` ms delays.

Randomness (the uuid values), the environment and every remote response are
passed in as explicit parameters, so each handler is a pure function from
those inputs to the HTTP response it returns plus the trace of outbound
calls it issues (and, for the retry variant, the list of delays it sleeps).
-/

namespace Omnivore

/-- An HTTP response as built by `new Response(body, { status })`; the
status defaults to 200 when the source omits it. -/
structure HttpResponse where
  body : String
  status : Nat := 200
deriving Repr, DecidableEq

/-- The parsed JSON body of a GraphQL mutation response, as far as the
handlers inspect it: `errors` holds `JSON.stringify` of the `errors` field
when the field is present, and `createdLabelId` holds
`data.createLabel.label.id` when that path exists (read only by the
set-labels variant). -/
structure GqlResponse where
  errors : Option String := none
  createdLabelId : Option String := none
deriving Repr, DecidableEq

/-- Outcome of one outbound `fetch` + `.json()` pair: either the pair threw
(network failure or non-JSON body) with the given error message, or it
produced a parsed response. -/
inductive RemoteResult where
  | netFail (msg : String)
  | reply (r : GqlResponse)
deriving Repr, DecidableEq

/-- An outbound HTTP call, recording the Authorization header value it
carried and the request data the handlers put in the mutation variables. -/
inductive Call where
  | createLabel (auth name : String)
  | addLabelToHighlight (auth highlightId label : String)
  | setLabelsForHighlight (auth highlightId labelId : String)
  | fetchArticle (auth slug : String)
  | completion (prompt : String)
  | createHighlight (auth articleId note : String)
  | updateHighlight (auth highlightId articleId note : String)
deriving Repr, DecidableEq

/-- The highlight record of the webhook payload. The source interface also
declares `type`, `annotation` and `labels`, but no handler ever reads them,
so only `id` is modelled; the JS falsy check `!highlight.id` is modelled by
`id = ""` (the empty string stands for an absent or empty id). -/
structure Highlight where
  id : String
deriving Repr, DecidableEq

/-- Webhook body for the three highlight handlers: an `action` string and an
optional `highlight` record. -/
structure WebhookPayload where
  action : String
  highlight : Option Highlight
deriving Repr, DecidableEq

/-- JS truthiness test `!x` on an environment variable: true when the
variable is undefined or the empty string. -/
def envFalsy : Option String → Bool
  | none => true
  | some s => s == ""

/-- The correlation tag built from a uuid value: `uuid:` followed by the
uuid, as in `const labelName = ` uuid:(dollar)(labelUuid) ` ` in every
handler. -/
def mkLabelName (u : String) : String := "uuid:" ++ u

/-- Canonical textual form of a version-4 UUID as produced by the `uuid`
library's `v4` export (an external dependency, taken as an assumption on
the handler's random input): 36 characters, hyphens at positions
8, 13, 18 and 23, lowercase hex digits elsewhere. -/
def isUuidChar (i : Nat) (c : Char) : Bool :=
  if i == 8 || i == 13 || i == 18 || i == 23 then c == '-'
  else c.isDigit || ('a' ≤ c && c ≤ 'f')

/-- A string is a canonical 36-character UUID. -/
def isCanonicalUuid (s : String) : Bool :=
  s.length == 36 && s.data.enum.all (fun p => isUuidChar p.1 p.2)

/-- Embedding of the `src/api/annotate.ts` default handler.
`u` is the value `uuidv4()` returned and `remote i` the outcome of the
i-th outbound call (0 = create-label, 1 = add-label-to-highlight). -/
def annotateHandler (body : WebhookPayload) (apiKey : Option String)
    (u : String) (remote : Nat → RemoteResult) : HttpResponse × List Call :=
  if body.action ≠ "created" then
    (⟨"不是 'created' 事件，无需处理。", 200⟩, [])
  else
    match body.highlight with
    | none => (⟨"在 webhook 负载中未找到高亮数据。", 200⟩, [])
    | some h =>
      if h.id = "" then (⟨"高亮 ID 不存在，无需操作。", 200⟩, [])
      else
        let labelName := mkLabelName u
        if envFalsy apiKey then (⟨"OMNIVORE_API_KEY 未设置", 500⟩, [])
        else
          let auth := apiKey.getD ""
          let c0 := Call.createLabel auth labelName
          match remote 0 with
          | .netFail msg => (⟨"处理 Omnivore webhook 时出错: " ++ msg, 500⟩, [c0])
          | .reply r0 =>
            match r0.errors with
            | some e => (⟨"创建标签失败: " ++ e, 500⟩, [c0])
            | none =>
              let c1 := Call.addLabelToHighlight auth h.id labelName
              match remote 1 with
              | .netFail msg =>
                (⟨"处理 Omnivore webhook 时出错: " ++ msg, 500⟩, [c0, c1])
              | .reply r1 =>
                match r1.errors with
                | some e => (⟨"将标签添加到高亮失败: " ++ e, 500⟩, [c0, c1])
                | none =>
                  (⟨"已将标签 " ++ labelName ++ " 添加到高亮。", 200⟩, [c0, c1])

/-- Embedding of the `src/unnamed/part_000` default handler
(HIGHLIGHT_CREATED variant). It never checks the API key (the
Authorization header falls back to the empty string) and never inspects
the `errors` field of either mutation response. -/
def highlightCreatedHandler (body : WebhookPayload) (apiKey : Option String)
    (u : String) (remote : Nat → RemoteResult) : HttpResponse × List Call :=
  if body.action ≠ "HIGHLIGHT_CREATED" then
    (⟨"不是 HIGHLIGHT_CREATED 事件，无需处理。", 200⟩, [])
  else
    match body.highlight with
    | none => (⟨"在 webhook 负载中未找到高亮数据。", 200⟩, [])
    | some h =>
      if h.id = "" then (⟨"高亮不存在，无需操作。", 200⟩, [])
      else
        let labelName := mkLabelName u
        let auth := apiKey.getD ""
        let c0 := Call.createLabel auth labelName
        match remote 0 with
        | .netFail msg => (⟨"处理 Omnivore webhook 时出错: " ++ msg, 500⟩, [c0])
        | .reply _ =>
          let c1 := Call.addLabelToHighlight auth h.id labelName
          match remote 1 with
          | .netFail msg =>
            (⟨"处理 Omnivore webhook 时出错: " ++ msg, 500⟩, [c0, c1])
          | .reply _ =>
            (⟨"已将标签 " ++ labelName ++ " 添加到高亮。", 200⟩, [c0, c1])

/-- The `while (retries < maxRetries && !success)` loop of
`src/unnamed/part_002`. Returns the success flag, the set-labels calls
issued, and the delays (in ms) slept between attempts. `fuel` is
`maxRetries - retries`, so the loop guard `retries < maxRetries` is
`fuel > 0`; each failed attempt increments `retries` (decrements `fuel`)
and, while `retries < maxRetries` still holds, sleeps `retries * 2000` ms
before the next attempt. `callIdx` indexes into the shared remote oracle. -/
def setLabelsLoop (remote : Nat → RemoteResult) (auth hid lid : String)
    (maxRetries : Nat) : Nat → Nat → Nat → Bool × List Call × List Nat
  | _, _, 0 => (false, [], [])
  | retries, callIdx, fuel + 1 =>
    let c := Call.setLabelsForHighlight auth hid lid
    let failRetry := fun (_ : Unit) =>
      let r := retries + 1
      if r < maxRetries then
        let rest := setLabelsLoop remote auth hid lid maxRetries r (callIdx + 1) fuel
        (rest.1, c :: rest.2.1, r * 2000 :: rest.2.2)
      else ((false : Bool), [c], ([] : List Nat))
    match remote callIdx with
    | .netFail _ => failRetry ()
    | .reply r =>
      match r.errors with
      | some _ => failRetry ()
      | none => (true, [c], [])

/-- Embedding of the `src/unnamed/part_002` default handler (set-labels
variant with retry). Calls: 0 = create-label, 1.. = the set-labels
attempts. Reading `data.createLabel.label.id` off a response without that
path throws a TypeError caught by the outer catch; the thrown message is
abstracted as the string "TypeError". The third output component is the
list of delays (ms) slept inside the retry loop. -/
def setLabelsHandler (body : WebhookPayload) (apiKey : Option String)
    (u : String) (remote : Nat → RemoteResult) :
    HttpResponse × List Call × List Nat :=
  if body.action ≠ "created" then
    (⟨"不是 'created' 事件，无需处理。", 200⟩, [], [])
  else
    match body.highlight with
    | none => (⟨"在 webhook 负载中未找到高亮数据。", 200⟩, [], [])
    | some h =>
      if h.id = "" then (⟨"高亮 ID 不存在，无需操作。", 200⟩, [], [])
      else
        let labelName := mkLabelName u
        if envFalsy apiKey then (⟨"OMNIVORE_API_KEY 未设置", 500⟩, [], [])
        else
          let auth := apiKey.getD ""
          let c0 := Call.createLabel auth labelName
          match remote 0 with
          | .netFail msg =>
            (⟨"处理 Omnivore webhook 时出错: " ++ msg, 500⟩, [c0], [])
          | .reply r0 =>
            match r0.errors with
            | some e => (⟨"创建标签失败: " ++ e, 500⟩, [c0], [])
            | none =>
              match r0.createdLabelId with
              | none =>
                (⟨"处理 Omnivore webhook 时出错: TypeError", 500⟩, [c0], [])
              | some lid =>
                let res := setLabelsLoop remote auth h.id lid 3 0 1 3
                if res.1 then
                  (⟨"已将标签 " ++ labelName ++ " 设置到高亮。", 200⟩,
                   c0 :: res.2.1, res.2.2)
                else
                  (⟨"设置高亮标签失败，已尝试 3 次。请检查服务器日志以获取更多信息。", 500⟩,
                   c0 :: res.2.1, res.2.2)

/-- A label carried by the LABEL_ADDED payload of `src/unnamed/part_001`;
only its `name` is ever read. -/
structure EventLabel where
  name : String
deriving Repr, DecidableEq

/-- The LABEL_ADDED payload of `src/unnamed/part_001`: a page id and the
label list. `labels := none` models a payload without a `labels` field, in
which case the source falls back to `[label]` and then reads `.name` of
the payload object itself (undefined), so `.split` throws a TypeError. -/
structure LabelPayload where
  pageId : String
  labels : Option (List EventLabel)
deriving Repr, DecidableEq

/-- The PAGE_CREATED payload of `src/unnamed/part_001`; only `id` is read. -/
structure PagePayload where
  id : String
deriving Repr, DecidableEq

/-- Webhook body of the annotation variant: the `action` string is declared
by the source interface but never read — classification is by presence of
the `label` and `page` payloads. -/
structure AnnotatePayload where
  action : String
  label : Option LabelPayload
  page : Option PagePayload
deriving Repr, DecidableEq

/-- A label attached to the fetched article: name plus optional
description (the description, when the name matches the configured
annotate label, becomes the completion prompt). -/
structure ArticleLabel where
  name : String
  description : Option String
deriving Repr, DecidableEq

/-- A highlight of the fetched article, as far as the handler reads it. -/
structure ArticleHighlight where
  id : String
  shortId : String
  type : String
deriving Repr, DecidableEq

/-- The article record the fetch query returns. -/
structure ArticleData where
  content : String
  title : String
  labels : List ArticleLabel
  highlights : List ArticleHighlight
deriving Repr, DecidableEq

/-- Outcome of the article fetch call: a throw (network failure, non-JSON
body, or a response without the destructured `data.article.article` path)
or a well-shaped article record. -/
inductive ArticleFetchResult where
  | netFail (msg : String)
  | ok (a : ArticleData)
deriving Repr, DecidableEq

/-- Outcome of the completion-service call: a rejection (rethrown) or a
response whose `choices[0].message.content` is the given optional text. -/
inductive CompletionResult where
  | fail (msg : String)
  | ok (text : Option String)
deriving Repr, DecidableEq

/-- `name.split(":")[0]`: the part of a label name before the first colon
(the whole name when it has no colon), computed as the longest colon-free
prefix of the character list. -/
def splitColonHead (s : String) : String :=
  String.mk (s.data.takeWhile (fun c => c != ':'))

/-- JS `a || b` on an optional left operand: `b` when `a` is undefined or
the empty string, else the value of `a`. -/
def orFalsy (a : Option String) (b : String) : String :=
  match a with
  | none => b
  | some s => if s = "" then b else s

/-- One character of the note-escaping step
`.replace(/(backslash)/g, ...).replace(/"/g, ...)`: a backslash becomes two
backslashes and a double quote becomes backslash-quote. -/
def escapeNoteChar (c : Char) : String :=
  if c = '\\' then "\\\\" else if c = '"' then "\\\"" else String.singleton c

/-- The completion text post-processing of `src/unnamed/part_001`: trim,
then escape backslashes, then escape double quotes (the two sequential
global replaces act on disjoint characters, so they equal one per-character
map over the trimmed text). -/
def escapeNote (s : String) : String :=
  String.join (s.trim.data.map escapeNoteChar)

/-- The per-article prompt lookup of `src/unnamed/part_001`: the
description of the first article label whose name-part before the first
colon equals the annotate label, when that label has a description. -/
def promptFromLabel (labels : List ArticleLabel) (annotateLabel : String) :
    Option String :=
  (labels.find? (fun l => splitColonHead l.name == annotateLabel)).bind
    (fun l => l.description)

/-- Steps of `src/unnamed/part_001` after the article fetch succeeded:
length check, completion call, create-label, create-or-update of the NOTE
highlight, add-label-to-highlight. The returned trace omits the fetch call
itself (the caller prepends it). `u` is the uuid of the correlation tag,
`noteId` the uuid drawn for a newly created NOTE highlight, and `muts i`
the outcome of the i-th GraphQL mutation call (0 = create-label,
1 = create/update highlight, 2 = add-label). None of the three mutation
responses is checked for an `errors` field. -/
def annotationAfterFetch (auth annotateLabel : String)
    (promptEnv : Option String) (u noteId articleId : String)
    (art : ArticleData) (completionResp : CompletionResult)
    (muts : Nat → RemoteResult) : HttpResponse × List Call :=
  let errResp := fun (msg : String) =>
    (⟨"将注释添加到 Omnivore 文章时出错: " ++ msg, 500⟩ : HttpResponse)
  let pfl := promptFromLabel art.labels annotateLabel
  let existingNote := art.highlights.find? (fun h => h.type == "NOTE")
  if art.content.length < 280 then
    (errResp "文章内容少于 280 个字符，无需总结。", [])
  else
    let prompt := orFalsy pfl (orFalsy promptEnv "返回以下文章的推特长度 TL;DR。")
    let cComp := Call.completion prompt
    match completionResp with
    | .fail msg => (errResp msg, [cComp])
    | .ok text =>
      let note := escapeNote (text.getD "")
      let labelName := mkLabelName u
      let cLbl := Call.createLabel auth labelName
      match muts 0 with
      | .netFail msg => (errResp msg, [cComp, cLbl])
      | .reply _ =>
        let cHl := match existingNote with
          | some n => Call.updateHighlight auth n.id articleId note
          | none => Call.createHighlight auth articleId note
        let targetId := match existingNote with
          | some n => n.id
          | none => noteId
        match muts 1 with
        | .netFail msg => (errResp msg, [cComp, cLbl, cHl])
        | .reply _ =>
          let cAdd := Call.addLabelToHighlight auth targetId labelName
          match muts 2 with
          | .netFail msg => (errResp msg, [cComp, cLbl, cHl, cAdd])
          | .reply _ =>
            (⟨"已添加带有标签 " ++ labelName ++ " 的文章注释。", 200⟩,
             [cComp, cLbl, cHl, cAdd])

/-- The article-fetch step shared by both branches of the annotation
variant: issue the fetch call, then continue with `annotationAfterFetch`
on a well-shaped response, or let the throw reach the outer catch. -/
def annotationFetchStep (auth annotateLabel : String)
    (promptEnv : Option String) (u noteId articleId : String)
    (articleResp : ArticleFetchResult) (completionResp : CompletionResult)
    (muts : Nat → RemoteResult) : HttpResponse × List Call :=
  let cFetch := Call.fetchArticle auth articleId
  match articleResp with
  | .netFail msg =>
    (⟨"将注释添加到 Omnivore 文章时出错: " ++ msg, 500⟩, [cFetch])
  | .ok art =>
    let r := annotationAfterFetch auth annotateLabel promptEnv u noteId
      articleId art completionResp muts
    (r.1, cFetch :: r.2)

/-- Embedding of the `src/unnamed/part_001` default handler (annotation
variant). Classification is by payload presence: a `label` payload means
LABEL_ADDED (requiring the annotate-label environment variable and a label
whose name-part before the first colon matches it), else a `page` payload
means PAGE_CREATED, else the handler throws. Every throw is caught by the
outer catch and turned into a 500 response. A LABEL_ADDED payload without
a `labels` field makes the source read `.name` of the payload object
(undefined) and throw a TypeError, abstracted as the message "TypeError". -/
def annotationHandler (body : AnnotatePayload)
    (annotateLabelEnv apiKeyEnv promptEnv : Option String)
    (u noteId : String) (articleResp : ArticleFetchResult)
    (completionResp : CompletionResult) (muts : Nat → RemoteResult) :
    HttpResponse × List Call :=
  let errResp := fun (msg : String) =>
    (⟨"将注释添加到 Omnivore 文章时出错: " ++ msg, 500⟩ : HttpResponse)
  let annotateLabel := annotateLabelEnv.getD ""
  let auth := apiKeyEnv.getD ""
  match body.label with
  | some lp =>
    if annotateLabel = "" then (errResp "环境中未指定标签。", [])
    else
      match lp.labels with
      | none => (errResp "TypeError", [])
      | some ls =>
        let labelNames := ls.map (fun l => splitColonHead l.name)
        match labelNames.find? (fun n => n == annotateLabel) with
        | none =>
          (errResp ("标签 \"" ++ annotateLabel ++ "\" 与 webhook 中提供的标签 <" ++
            String.intercalate (", ") labelNames ++ "> 不匹配。"), [])
        | some _ =>
          annotationFetchStep auth annotateLabel promptEnv u noteId lp.pageId
            articleResp completionResp muts
  | none =>
    match body.page with
    | some pp =>
      annotationFetchStep auth annotateLabel promptEnv u noteId pp.id
        articleResp completionResp muts
    | none => (errResp "在 webhook 负载中未找到标签或页面数据。", [])

/-- The retry loop of the set-labels variant counts an attempt as failed
when the fetch or JSON parse threw, or when the parsed response carries an
`errors` field. -/
def remoteFailed : RemoteResult → Bool
  | .netFail _ => true
  | .reply r => r.errors.isSome

theorem setLabelsLoop_step_fail (remote : Nat → RemoteResult)
    (auth hid lid : String) (maxRetries retries callIdx fuel : Nat)
    (hf : remoteFailed (remote callIdx) = true) :
    setLabelsLoop remote auth hid lid maxRetries retries callIdx (fuel + 1) =
      (if retries + 1 < maxRetries then
        ((setLabelsLoop remote auth hid lid maxRetries (retries + 1)
            (callIdx + 1) fuel).1,
         Call.setLabelsForHighlight auth hid lid ::
           (setLabelsLoop remote auth hid lid maxRetries (retries + 1)
             (callIdx + 1) fuel).2.1,
         (retries + 1) * 2000 ::
           (setLabelsLoop remote auth hid lid maxRetries (retries + 1)
             (callIdx + 1) fuel).2.2)
      else (false, [Call.setLabelsForHighlight auth hid lid], [])) := by
  cases hr : remote callIdx with
  | netFail m => simp [setLabelsLoop, hr]
  | reply r =>
    rw [hr] at hf
    simp only [remoteFailed] at hf
    obtain ⟨e, he⟩ := Option.isSome_iff_exists.mp hf
    simp [setLabelsLoop, hr, he]

theorem setLabelsLoop_step_ok (remote : Nat → RemoteResult)
    (auth hid lid : String) (maxRetries retries callIdx fuel : Nat)
    (hf : remoteFailed (remote callIdx) = false) :
    setLabelsLoop remote auth hid lid maxRetries retries callIdx (fuel + 1) =
      (true, [Call.setLabelsForHighlight auth hid lid], []) := by
  cases hr : remote callIdx with
  | netFail m =>
    rw [hr] at hf
    simp [remoteFailed] at hf
  | reply r =>
    rw [hr] at hf
    cases hre : r.errors with
    | some e => simp [remoteFailed, hre] at hf
    | none => simp [setLabelsLoop, hr, hre]

theorem setLabelsHandler_run (h : Highlight) (k u lid : String)
    (remote : Nat → RemoteResult) (hk : k ≠ "") (hid : h.id ≠ "")
    (h0 : remote 0 = RemoteResult.reply ⟨none, some lid⟩) :
    setLabelsHandler ⟨"created", some h⟩ (some k) u remote =
      (if (setLabelsLoop remote k h.id lid 3 0 1 3).1 then
        (⟨"已将标签 " ++ mkLabelName u ++ " 设置到高亮。", 200⟩,
         Call.createLabel k (mkLabelName u) ::
           (setLabelsLoop remote k h.id lid 3 0 1 3).2.1,
         (setLabelsLoop remote k h.id lid 3 0 1 3).2.2)
      else
        (⟨"设置高亮标签失败，已尝试 3 次。请检查服务器日志以获取更多信息。", 500⟩,
         Call.createLabel k (mkLabelName u) ::
           (setLabelsLoop remote k h.id lid 3 0 1 3).2.1,
         (setLabelsLoop remote k h.id lid 3 0 1 3).2.2)) := by
  simp [setLabelsHandler, hid, hk, h0, envFalsy]

theorem setLabelsLoop_exhaust (remote : Nat → RemoteResult)
    (auth hid lid : String)
    (h1 : remoteFailed (remote 1) = true)
    (h2 : remoteFailed (remote 2) = true)
    (h3 : remoteFailed (remote 3) = true) :
    setLabelsLoop remote auth hid lid 3 0 1 3 =
      (false,
       [Call.setLabelsForHighlight auth hid lid,
        Call.setLabelsForHighlight auth hid lid,
        Call.setLabelsForHighlight auth hid lid],
       [2000, 4000]) := by
  have s1 := setLabelsLoop_step_fail remote auth hid lid 3 0 1 2 h1
  have s2 := setLabelsLoop_step_fail remote auth hid lid 3 1 2 1 h2
  have s3 := setLabelsLoop_step_fail remote auth hid lid 3 2 3 0 h3
  norm_num at s1 s2 s3
  rw [s1, s2, s3]

/-- Claim C1: in the set-labels retry variant, when every attempt's
mutation response carries an `errors` field or fails at the network/JSON
level, the handler makes exactly 3 set-labels attempts, sleeps 2000 ms
after the first failure and 4000 ms after the second (attempt number times
2 seconds, non-decreasing), and returns a 500 response that reports
exhaustion of the 3 attempts and points at the server logs instead of the
last underlying error message. -/
theorem c1_retry_exhaustion (h : Highlight) (k u lid : String)
    (remote : Nat → RemoteResult) (hk : k ≠ "") (hid : h.id ≠ "")
    (h0 : remote 0 = RemoteResult.reply ⟨none, some lid⟩)
    (h1 : remoteFailed (remote 1) = true)
    (h2 : remoteFailed (remote 2) = true)
    (h3 : remoteFailed (remote 3) = true) :
    setLabelsHandler ⟨"created", some h⟩ (some k) u remote =
      (⟨"设置高亮标签失败，已尝试 3 次。请检查服务器日志以获取更多信息。", 500⟩,
       [Call.createLabel k (mkLabelName u),
        Call.setLabelsForHighlight k h.id lid,
        Call.setLabelsForHighlight k h.id lid,
        Call.setLabelsForHighlight k h.id lid],
       [2000, 4000]) := by
  rw [setLabelsHandler_run h k u lid remote hk hid h0,
    setLabelsLoop_exhaust remote k h.id lid h1 h2 h3]
  simp

theorem c1_retry_exhaustion_witness :
    setLabelsHandler ⟨"created", some ⟨"h1"⟩⟩ (some "key") "u"
        (fun i => if i == 0 then RemoteResult.reply ⟨none, some "lid"⟩
          else RemoteResult.reply ⟨some "boom", none⟩) =
      (⟨"设置高亮标签失败，已尝试 3 次。请检查服务器日志以获取更多信息。", 500⟩,
       [Call.createLabel "key" (mkLabelName "u"),
        Call.setLabelsForHighlight "key" "h1" "lid",
        Call.setLabelsForHighlight "key" "h1" "lid",
        Call.setLabelsForHighlight "key" "h1" "lid"],
       [2000, 4000]) :=
  c1_retry_exhaustion ⟨"h1"⟩ "key" "u" "lid"
    (fun i => if i == 0 then RemoteResult.reply ⟨none, some "lid"⟩
      else RemoteResult.reply ⟨some "boom", none⟩)
    (by decide) (by decide) rfl rfl rfl rfl

/-- Claim C2: in the set-labels retry variant, when the mutation succeeds
on attempt N with N ≤ 3 (no `errors` field in the response), the handler
makes exactly N set-labels attempts (none after the success) and returns a
success response whose text carries the generated correlation tag. -/
theorem c2_retry_success (h : Highlight) (k u lid : String) (n : Nat)
    (remote : Nat → RemoteResult) (hk : k ≠ "") (hid : h.id ≠ "")
    (h0 : remote 0 = RemoteResult.reply ⟨none, some lid⟩)
    (hn1 : 1 ≤ n) (hn3 : n ≤ 3)
    (hfail : ∀ i, 1 ≤ i → i < n → remoteFailed (remote i) = true)
    (hsucc : remoteFailed (remote n) = false) :
    (setLabelsHandler ⟨"created", some h⟩ (some k) u remote).1 =
      ⟨"已将标签 " ++ mkLabelName u ++ " 设置到高亮。", 200⟩ ∧
    (setLabelsHandler ⟨"created", some h⟩ (some k) u remote).2.1 =
      Call.createLabel k (mkLabelName u) ::
        List.replicate n (Call.setLabelsForHighlight k h.id lid) := by
  rw [setLabelsHandler_run h k u lid remote hk hid h0]
  interval_cases n
  · have o1 := setLabelsLoop_step_ok remote k h.id lid 3 0 1 2 hsucc
    norm_num at o1
    rw [o1]
    simp [List.replicate]
  · have s1 := setLabelsLoop_step_fail remote k h.id lid 3 0 1 2
      (hfail 1 (by norm_num) (by norm_num))
    have o2 := setLabelsLoop_step_ok remote k h.id lid 3 1 2 1 hsucc
    norm_num at s1 o2
    rw [s1, o2]
    simp [List.replicate]
  · have s1 := setLabelsLoop_step_fail remote k h.id lid 3 0 1 2
      (hfail 1 (by norm_num) (by norm_num))
    have s2 := setLabelsLoop_step_fail remote k h.id lid 3 1 2 1
      (hfail 2 (by norm_num) (by norm_num))
    have o3 := setLabelsLoop_step_ok remote k h.id lid 3 2 3 0 hsucc
    norm_num at s1 s2 o3
    rw [s1, s2, o3]
    simp [List.replicate]

theorem c2_retry_success_witness :
    (setLabelsHandler ⟨"created", some ⟨"h1"⟩⟩ (some "key") "u"
        (fun i => if i == 0 then RemoteResult.reply ⟨none, some "lid"⟩
          else if i == 1 then RemoteResult.reply ⟨some "boom", none⟩
          else RemoteResult.reply ⟨none, none⟩)).1 =
      ⟨"已将标签 " ++ mkLabelName "u" ++ " 设置到高亮。", 200⟩ ∧
    (setLabelsHandler ⟨"created", some ⟨"h1"⟩⟩ (some "key") "u"
        (fun i => if i == 0 then RemoteResult.reply ⟨none, some "lid"⟩
          else if i == 1 then RemoteResult.reply ⟨some "boom", none⟩
          else RemoteResult.reply ⟨none, none⟩)).2.1 =
      Call.createLabel "key" (mkLabelName "u") ::
        List.replicate 2 (Call.setLabelsForHighlight "key" "h1" "lid") :=
  c2_retry_success ⟨"h1"⟩ "key" "u" "lid" 2
    (fun i => if i == 0 then RemoteResult.reply ⟨none, some "lid"⟩
      else if i == 1 then RemoteResult.reply ⟨some "boom", none⟩
      else RemoteResult.reply ⟨none, none⟩)
    (by decide) (by decide) rfl (by norm_num) (by norm_num)
    (by intro i hi1 hi2; interval_cases i; rfl) rfl

/-- Claim C3 (amended): in the three highlight handlers (annotate.ts,
HIGHLIGHT_CREATED, set-labels) an unrecognized action, a missing highlight
payload, or a highlight with an empty id yields a 200 no-action response
and zero outbound calls; the annotation variant, which classifies by
payload presence, instead throws on a body without a label or page payload
and returns a 500 error response, still with zero outbound calls. -/
theorem c3_no_op_paths (a b act : String) (hl : Option Highlight)
    (h : Highlight) (k al pr : Option String) (u nid : String)
    (remote : Nat → RemoteResult) (ar : ArticleFetchResult)
    (cr : CompletionResult) (muts : Nat → RemoteResult)
    (ha : a ≠ "created") (hb : b ≠ "HIGHLIGHT_CREATED") (hid : h.id = "") :
    annotateHandler ⟨a, hl⟩ k u remote =
      (⟨"不是 'created' 事件，无需处理。", 200⟩, []) ∧
    annotateHandler ⟨"created", none⟩ k u remote =
      (⟨"在 webhook 负载中未找到高亮数据。", 200⟩, []) ∧
    annotateHandler ⟨"created", some h⟩ k u remote =
      (⟨"高亮 ID 不存在，无需操作。", 200⟩, []) ∧
    highlightCreatedHandler ⟨b, hl⟩ k u remote =
      (⟨"不是 HIGHLIGHT_CREATED 事件，无需处理。", 200⟩, []) ∧
    highlightCreatedHandler ⟨"HIGHLIGHT_CREATED", none⟩ k u remote =
      (⟨"在 webhook 负载中未找到高亮数据。", 200⟩, []) ∧
    highlightCreatedHandler ⟨"HIGHLIGHT_CREATED", some h⟩ k u remote =
      (⟨"高亮不存在，无需操作。", 200⟩, []) ∧
    setLabelsHandler ⟨a, hl⟩ k u remote =
      (⟨"不是 'created' 事件，无需处理。", 200⟩, [], []) ∧
    setLabelsHandler ⟨"created", none⟩ k u remote =
      (⟨"在 webhook 负载中未找到高亮数据。", 200⟩, [], []) ∧
    setLabelsHandler ⟨"created", some h⟩ k u remote =
      (⟨"高亮 ID 不存在，无需操作。", 200⟩, [], []) ∧
    annotationHandler ⟨act, none, none⟩ al k pr u nid ar cr muts =
      (⟨"将注释添加到 Omnivore 文章时出错: 在 webhook 负载中未找到标签或页面数据。", 500⟩,
       []) := by
  refine ⟨?_, ?_, ?_, ?_, ?_, ?_, ?_, ?_, ?_, ?_⟩ <;>
    simp [annotateHandler, highlightCreatedHandler, setLabelsHandler,
      annotationHandler, ha, hb, hid]

theorem c3_no_op_paths_witness :
    annotateHandler ⟨"updated", some ⟨"h1"⟩⟩ (some "key") "u"
        (fun _ => RemoteResult.netFail "z") =
      (⟨"不是 'created' 事件，无需处理。", 200⟩, []) ∧
    annotateHandler ⟨"created", none⟩ (some "key") "u"
        (fun _ => RemoteResult.netFail "z") =
      (⟨"在 webhook 负载中未找到高亮数据。", 200⟩, []) ∧
    annotateHandler ⟨"created", some ⟨""⟩⟩ (some "key") "u"
        (fun _ => RemoteResult.netFail "z") =
      (⟨"高亮 ID 不存在，无需操作。", 200⟩, []) ∧
    highlightCreatedHandler ⟨"updated", some ⟨"h1"⟩⟩ (some "key") "u"
        (fun _ => RemoteResult.netFail "z") =
      (⟨"不是 HIGHLIGHT_CREATED 事件，无需处理。", 200⟩, []) ∧
    highlightCreatedHandler ⟨"HIGHLIGHT_CREATED", none⟩ (some "key") "u"
        (fun _ => RemoteResult.netFail "z") =
      (⟨"在 webhook 负载中未找到高亮数据。", 200⟩, []) ∧
    highlightCreatedHandler ⟨"HIGHLIGHT_CREATED", some ⟨""⟩⟩ (some "key") "u"
        (fun _ => RemoteResult.netFail "z") =
      (⟨"高亮不存在，无需操作。", 200⟩, []) ∧
    setLabelsHandler ⟨"updated", some ⟨"h1"⟩⟩ (some "key") "u"
        (fun _ => RemoteResult.netFail "z") =
      (⟨"不是 'created' 事件，无需处理。", 200⟩, [], []) ∧
    setLabelsHandler ⟨"created", none⟩ (some "key") "u"
        (fun _ => RemoteResult.netFail "z") =
      (⟨"在 webhook 负载中未找到高亮数据。", 200⟩, [], []) ∧
    setLabelsHandler ⟨"created", some ⟨""⟩⟩ (some "key") "u"
        (fun _ => RemoteResult.netFail "z") =
      (⟨"高亮 ID 不存在，无需操作。", 200⟩, [], []) ∧
    annotationHandler ⟨"PAGE_CREATED", none, none⟩ (some "summarize")
        (some "key") none "u" "n" (ArticleFetchResult.netFail "x")
        (CompletionResult.fail "y") (fun _ => RemoteResult.netFail "z") =
      (⟨"将注释添加到 Omnivore 文章时出错: 在 webhook 负载中未找到标签或页面数据。", 500⟩,
       []) :=
  c3_no_op_paths "updated" "updated" "PAGE_CREATED" (some ⟨"h1"⟩) ⟨""⟩
    (some "key") (some "summarize") none "u" "n"
    (fun _ => RemoteResult.netFail "z") (ArticleFetchResult.netFail "x")
    (CompletionResult.fail "y") (fun _ => RemoteResult.netFail "z")
    (by decide) (by decide) rfl

theorem c3_counterexample :
    ¬ ((annotationHandler ⟨"PAGE_CREATED", none, none⟩ (some "summarize")
        (some "key") none "u" "n" (ArticleFetchResult.netFail "x")
        (CompletionResult.fail "y")
        (fun _ => RemoteResult.netFail "z")).1.status = 200) := by
  decide

/-- Claim C4 (amended): with the content-service API key unset, the
annotate.ts and set-labels handlers return a 500 response before any
outbound call; the HIGHLIGHT_CREATED handler never checks the key and
proceeds, issuing both mutations with an empty Authorization header and
returning a success response when the remote replies. -/
theorem c4_missing_key (h : Highlight) (u : String)
    (remote : Nat → RemoteResult) (hid : h.id ≠ "")
    (hok : ∀ i, remote i = RemoteResult.reply ⟨none, none⟩) :
    annotateHandler ⟨"created", some h⟩ none u remote =
      (⟨"OMNIVORE_API_KEY 未设置", 500⟩, []) ∧
    setLabelsHandler ⟨"created", some h⟩ none u remote =
      (⟨"OMNIVORE_API_KEY 未设置", 500⟩, [], []) ∧
    highlightCreatedHandler ⟨"HIGHLIGHT_CREATED", some h⟩ none u remote =
      (⟨"已将标签 " ++ mkLabelName u ++ " 添加到高亮。", 200⟩,
       [Call.createLabel "" (mkLabelName u),
        Call.addLabelToHighlight "" h.id (mkLabelName u)]) := by
  refine ⟨?_, ?_, ?_⟩ <;>
    simp [annotateHandler, setLabelsHandler, highlightCreatedHandler,
      envFalsy, hid, hok]

theorem c4_missing_key_witness :
    annotateHandler ⟨"created", some ⟨"h1"⟩⟩ none "u"
        (fun _ => RemoteResult.reply ⟨none, none⟩) =
      (⟨"OMNIVORE_API_KEY 未设置", 500⟩, []) ∧
    setLabelsHandler ⟨"created", some ⟨"h1"⟩⟩ none "u"
        (fun _ => RemoteResult.reply ⟨none, none⟩) =
      (⟨"OMNIVORE_API_KEY 未设置", 500⟩, [], []) ∧
    highlightCreatedHandler ⟨"HIGHLIGHT_CREATED", some ⟨"h1"⟩⟩ none "u"
        (fun _ => RemoteResult.reply ⟨none, none⟩) =
      (⟨"已将标签 " ++ mkLabelName "u" ++ " 添加到高亮。", 200⟩,
       [Call.createLabel "" (mkLabelName "u"),
        Call.addLabelToHighlight "" "h1" (mkLabelName "u")]) :=
  c4_missing_key ⟨"h1"⟩ "u" (fun _ => RemoteResult.reply ⟨none, none⟩)
    (by decide) (fun _ => rfl)

theorem c4_counterexample :
    ¬ (((highlightCreatedHandler ⟨"HIGHLIGHT_CREATED", some ⟨"h1"⟩⟩ none "u"
        (fun _ => RemoteResult.reply ⟨none, none⟩)).1.status = 500) ∧
      (highlightCreatedHandler ⟨"HIGHLIGHT_CREATED", some ⟨"h1"⟩⟩ none "u"
        (fun _ => RemoteResult.reply ⟨none, none⟩)).2 = []) := by
  decide

/-- Claim C5 (amended): in the annotate.ts handler and in the set-labels
handler's create-label step — the calls not wrapped in a retry loop that
inspect their response — a response carrying an `errors` field is terminal:
the handler returns a 500 response whose text describes the stringified
error payload and issues no further call. The HIGHLIGHT_CREATED and
annotation variants never inspect the `errors` field of their non-retried
calls and continue regardless. -/
theorem c5_errors_terminal (h : Highlight) (k u e : String)
    (remote remote2 : Nat → RemoteResult) (hk : k ≠ "") (hid : h.id ≠ "")
    (herr : remote 0 = RemoteResult.reply ⟨some e, none⟩)
    (h20 : remote2 0 = RemoteResult.reply ⟨none, none⟩)
    (h21 : remote2 1 = RemoteResult.reply ⟨some e, none⟩) :
    annotateHandler ⟨"created", some h⟩ (some k) u remote =
      (⟨"创建标签失败: " ++ e, 500⟩, [Call.createLabel k (mkLabelName u)]) ∧
    setLabelsHandler ⟨"created", some h⟩ (some k) u remote =
      (⟨"创建标签失败: " ++ e, 500⟩, [Call.createLabel k (mkLabelName u)], []) ∧
    annotateHandler ⟨"created", some h⟩ (some k) u remote2 =
      (⟨"将标签添加到高亮失败: " ++ e, 500⟩,
       [Call.createLabel k (mkLabelName u),
        Call.addLabelToHighlight k h.id (mkLabelName u)]) := by
  refine ⟨?_, ?_, ?_⟩ <;>
    simp [annotateHandler, setLabelsHandler, envFalsy, hk, hid, herr,
      h20, h21]

theorem c5_errors_terminal_witness :
    annotateHandler ⟨"created", some ⟨"h1"⟩⟩ (some "key") "u"
        (fun _ => RemoteResult.reply ⟨some "boom", none⟩) =
      (⟨"创建标签失败: " ++ "boom", 500⟩,
       [Call.createLabel "key" (mkLabelName "u")]) ∧
    setLabelsHandler ⟨"created", some ⟨"h1"⟩⟩ (some "key") "u"
        (fun _ => RemoteResult.reply ⟨some "boom", none⟩) =
      (⟨"创建标签失败: " ++ "boom", 500⟩,
       [Call.createLabel "key" (mkLabelName "u")], []) ∧
    annotateHandler ⟨"created", some ⟨"h1"⟩⟩ (some "key") "u"
        (fun i => if i == 0 then RemoteResult.reply ⟨none, none⟩
          else RemoteResult.reply ⟨some "boom", none⟩) =
      (⟨"将标签添加到高亮失败: " ++ "boom", 500⟩,
       [Call.createLabel "key" (mkLabelName "u"),
        Call.addLabelToHighlight "key" "h1" (mkLabelName "u")]) :=
  c5_errors_terminal ⟨"h1"⟩ "key" "u" "boom"
    (fun _ => RemoteResult.reply ⟨some "boom", none⟩)
    (fun i => if i == 0 then RemoteResult.reply ⟨none, none⟩
      else RemoteResult.reply ⟨some "boom", none⟩)
    (by decide) (by decide) rfl rfl rfl

theorem c5_counterexample :
    ¬ ((highlightCreatedHandler ⟨"HIGHLIGHT_CREATED", some ⟨"h1"⟩⟩
        (some "key") "u"
        (fun i => if i == 0 then RemoteResult.reply ⟨some "boom", none⟩
          else RemoteResult.reply ⟨none, none⟩)).1.status = 500) := by
  decide

/-- Claim C6: for a body with action "created" and a highlight with id
"h1", the configured key, and a remote endpoint whose responses never
carry an `errors` field, the annotate.ts handler issues exactly two
outbound calls — create-label first, add-label-to-highlight second — and
returns a success response carrying the generated tag `uuid:` ++ uuid and
confirming the attachment to the highlight. -/
theorem c6_end_to_end (h : Highlight) (k u : String)
    (remote : Nat → RemoteResult) (hid : h.id = "h1") (hk : k ≠ "")
    (hok : ∀ i, ∃ g, remote i = RemoteResult.reply g ∧ g.errors = none) :
    (annotateHandler ⟨"created", some h⟩ (some k) u remote).2 =
      [Call.createLabel k (mkLabelName u),
       Call.addLabelToHighlight k "h1" (mkLabelName u)] ∧
    (annotateHandler ⟨"created", some h⟩ (some k) u remote).1 =
      ⟨"已将标签 " ++ mkLabelName u ++ " 添加到高亮。", 200⟩ ∧
    mkLabelName u = "uuid:" ++ u := by
  obtain ⟨g0, hg0, he0⟩ := hok 0
  obtain ⟨g1, hg1, he1⟩ := hok 1
  refine ⟨?_, ?_, rfl⟩ <;>
    simp [annotateHandler, envFalsy, hk, hid, hg0, hg1, he0, he1]

theorem c6_end_to_end_witness :
    (annotateHandler ⟨"created", some ⟨"h1"⟩⟩ (some "key") "u"
        (fun _ => RemoteResult.reply ⟨none, none⟩)).2 =
      [Call.createLabel "key" (mkLabelName "u"),
       Call.addLabelToHighlight "key" "h1" (mkLabelName "u")] ∧
    (annotateHandler ⟨"created", some ⟨"h1"⟩⟩ (some "key") "u"
        (fun _ => RemoteResult.reply ⟨none, none⟩)).1 =
      ⟨"已将标签 " ++ mkLabelName "u" ++ " 添加到高亮。", 200⟩ ∧
    mkLabelName "u" = "uuid:" ++ "u" :=
  c6_end_to_end ⟨"h1"⟩ "key" "u" (fun _ => RemoteResult.reply ⟨none, none⟩)
    rfl (by decide) (fun _ => ⟨⟨none, none⟩, rfl, rfl⟩)

/-- Claim C7: every correlation tag the handlers generate is the string
`uuid:` followed by the 36-character canonical UUID the generator drew
(41 characters in total), and distinct uuids in two invocations yield
distinct tags. -/
theorem c7_tag_format (u v : String) (hu : isCanonicalUuid u = true) :
    (mkLabelName u).data = "uuid:".data ++ u.data ∧
    u.length = 36 ∧
    (mkLabelName u).length = 41 ∧
    (u ≠ v → mkLabelName u ≠ mkLabelName v) := by
  simp only [isCanonicalUuid, Bool.and_eq_true, beq_iff_eq] at hu
  have hlen : u.length = 36 := hu.1
  refine ⟨String.data_append ("uuid:") u, hlen, ?_, ?_⟩
  · rw [mkLabelName, String.length_append, hlen]
    decide
  · intro hne heq
    apply hne
    have hd := congrArg String.data heq
    rw [mkLabelName, mkLabelName, String.data_append, String.data_append] at hd
    exact String.ext (List.append_cancel_left hd)

theorem c7_tag_format_witness :
    (mkLabelName ("123e4567-e89b-42d3-a456-426614174000")).data =
      "uuid:".data ++ ("123e4567-e89b-42d3-a456-426614174000" : String).data ∧
    ("123e4567-e89b-42d3-a456-426614174000" : String).length = 36 ∧
    (mkLabelName ("123e4567-e89b-42d3-a456-426614174000")).length = 41 ∧
    mkLabelName ("123e4567-e89b-42d3-a456-426614174000") ≠
      mkLabelName ("00000000-0000-4000-8000-000000000000") :=
  have h := c7_tag_format "123e4567-e89b-42d3-a456-426614174000"
    "00000000-0000-4000-8000-000000000000" (by decide)
  ⟨h.1, h.2.1, h.2.2.1, h.2.2.2 (by decide)⟩

/-- Claim C8: in the annotation variant, a fetched article whose content
is shorter than 280 characters aborts the whole invocation with a 500
response; the only outbound call made is the article fetch — no
completion-service call, no highlight mutation, no tag attachment. -/
theorem c8_short_content (p : PagePayload) (k u nid : String)
    (al pr : Option String) (art : ArticleData) (cr : CompletionResult)
    (muts : Nat → RemoteResult) (hshort : art.content.length < 280) :
    annotationHandler ⟨"PAGE_CREATED", none, some p⟩ al (some k) pr u nid
        (ArticleFetchResult.ok art) cr muts =
      (⟨"将注释添加到 Omnivore 文章时出错: 文章内容少于 280 个字符，无需总结。", 500⟩,
       [Call.fetchArticle k p.id]) := by
  simp [annotationHandler, annotationFetchStep, annotationAfterFetch, hshort]

theorem c8_short_content_witness :
    annotationHandler ⟨"PAGE_CREATED", none, some ⟨"a1"⟩⟩ none (some "key")
        none "u" "n" (ArticleFetchResult.ok ⟨"short", "title", [], []⟩)
        (CompletionResult.fail "y") (fun _ => RemoteResult.netFail "z") =
      (⟨"将注释添加到 Omnivore 文章时出错: 文章内容少于 280 个字符，无需总结。", 500⟩,
       [Call.fetchArticle "key" "a1"]) :=
  c8_short_content ⟨"a1"⟩ "key" "u" "n" none none ⟨"short", "title", [], []⟩
    (CompletionResult.fail "y") (fun _ => RemoteResult.netFail "z")
    (by decide)

/-- Claim C9: in the annotation variant, label matching compares only the
part of each label name before the first colon with the configured
annotate label: the name "summarize:custom" matches the filter
"summarize"; the LABEL_ADDED relevance check lets the handler proceed to
the article fetch exactly when some webhook label's pre-colon part equals
the filter (otherwise it fails with the mismatch message and no outbound
call); and the per-article prompt lookup returns the description of the
first article label whose pre-colon part equals the filter, none when no
name matches. -/
theorem c9_prefix_match (a pid u nid : String) (ls : List EventLabel)
    (als : List ArticleLabel) (l : ArticleLabel)
    (keyEnv prEnv : Option String) (ar : ArticleFetchResult)
    (cr : CompletionResult) (muts : Nat → RemoteResult) (ha : a ≠ "") :
    splitColonHead ("summarize:custom") = "summarize" ∧
    ((∃ x ∈ ls, splitColonHead x.name = a) →
      (annotationHandler ⟨"LABEL_ADDED", some ⟨pid, some ls⟩, none⟩ (some a)
        keyEnv prEnv u nid ar cr muts).2.head? =
        some (Call.fetchArticle (keyEnv.getD "") pid)) ∧
    ((∀ x ∈ ls, splitColonHead x.name ≠ a) →
      annotationHandler ⟨"LABEL_ADDED", some ⟨pid, some ls⟩, none⟩ (some a)
        keyEnv prEnv u nid ar cr muts =
        (⟨"将注释添加到 Omnivore 文章时出错: " ++ ("标签 \"" ++ a ++
          "\" 与 webhook 中提供的标签 <" ++
          String.intercalate (", ")
            (ls.map (fun x => splitColonHead x.name)) ++ "> 不匹配。"), 500⟩,
         [])) ∧
    (als.find? (fun x => splitColonHead x.name == a) = some l →
      promptFromLabel als a = l.description) ∧
    ((∀ x ∈ als, splitColonHead x.name ≠ a) → promptFromLabel als a = none) := by
  refine ⟨by decide, ?_, ?_, ?_, ?_⟩
  · rintro ⟨x, hx, hxa⟩
    have hsome : ((ls.map (fun y => splitColonHead y.name)).find?
        (fun n => n == a)).isSome = true := by
      rw [List.find?_isSome]
      exact ⟨splitColonHead x.name, List.mem_map_of_mem _ hx, by simp [hxa]⟩
    obtain ⟨n, hn⟩ := Option.isSome_iff_exists.mp hsome
    cases ar <;>
      simp [annotationHandler, annotationFetchStep, ha, hn]
  · intro hnone
    have hfn : (ls.map (fun y => splitColonHead y.name)).find?
        (fun n => n == a) = none := by
      rw [List.find?_eq_none]
      intro n hn
      obtain ⟨x, hx, rfl⟩ := List.mem_map.mp hn
      simp [hnone x hx]
    simp [annotationHandler, ha, hfn]
  · intro hfind
    simp [promptFromLabel, hfind]
  · intro hnone
    have hfn : als.find? (fun x => splitColonHead x.name == a) = none := by
      rw [List.find?_eq_none]
      intro x hx
      simp [hnone x hx]
    simp [promptFromLabel, hfn]

theorem c9_prefix_match_witness :
    splitColonHead ("summarize:custom") = "summarize" ∧
    ((∃ x ∈ [(⟨"summarize:custom"⟩ : EventLabel)],
        splitColonHead x.name = "summarize") →
      (annotationHandler
        ⟨"LABEL_ADDED", some ⟨"a1", some [⟨"summarize:custom"⟩]⟩, none⟩
        (some "summarize") (some "key") none "u" "n"
        (ArticleFetchResult.netFail "x") (CompletionResult.fail "y")
        (fun _ => RemoteResult.netFail "z")).2.head? =
        some (Call.fetchArticle ((some "key").getD "") "a1")) ∧
    ((∀ x ∈ [(⟨"summarize:custom"⟩ : EventLabel)],
        splitColonHead x.name ≠ "summarize") →
      annotationHandler
        ⟨"LABEL_ADDED", some ⟨"a1", some [⟨"summarize:custom"⟩]⟩, none⟩
        (some "summarize") (some "key") none "u" "n"
        (ArticleFetchResult.netFail "x") (CompletionResult.fail "y")
        (fun _ => RemoteResult.netFail "z") =
        (⟨"将注释添加到 Omnivore 文章时出错: " ++ ("标签 \"" ++ "summarize" ++
          "\" 与 webhook 中提供的标签 <" ++
          String.intercalate (", ")
            ([(⟨"summarize:custom"⟩ : EventLabel)].map
              (fun x => splitColonHead x.name)) ++ "> 不匹配。"), 500⟩,
         [])) ∧
    (([(⟨"summarize:p", some "PROMPT"⟩ : ArticleLabel)].find?
        (fun x => splitColonHead x.name == "summarize") =
        some ⟨"summarize:p", some "PROMPT"⟩) →
      promptFromLabel [⟨"summarize:p", some "PROMPT"⟩] "summarize" =
        (⟨"summarize:p", some "PROMPT"⟩ : ArticleLabel).description) ∧
    ((∀ x ∈ [(⟨"summarize:p", some "PROMPT"⟩ : ArticleLabel)],
        splitColonHead x.name ≠ "summarize") →
      promptFromLabel [⟨"summarize:p", some "PROMPT"⟩] "summarize" = none) :=
  c9_prefix_match "summarize" "a1" "u" "n" [⟨"summarize:custom"⟩]
    [⟨"summarize:p", some "PROMPT"⟩] ⟨"summarize:p", some "PROMPT"⟩
    (some "key") none (ArticleFetchResult.netFail "x")
    (CompletionResult.fail "y") (fun _ => RemoteResult.netFail "z")
    (by decide)

/-- Claim C10: in the annotation variant, a LABEL_ADDED event with the
annotate-label environment variable unset yields a 500 response before any
outbound call, so the variable is required for LABEL_ADDED events; a
PAGE_CREATED event does not consult it as a precondition — its first
outbound call, the article fetch, is issued regardless. -/
theorem c10_label_env_required (lp : LabelPayload) (p : PagePayload)
    (keyEnv prEnv : Option String) (u nid : String)
    (ar : ArticleFetchResult) (cr : CompletionResult)
    (muts : Nat → RemoteResult) :
    annotationHandler ⟨"LABEL_ADDED", some lp, none⟩ none keyEnv prEnv u nid
        ar cr muts =
      (⟨"将注释添加到 Omnivore 文章时出错: 环境中未指定标签。", 500⟩, []) ∧
    (annotationHandler ⟨"PAGE_CREATED", none, some p⟩ none keyEnv prEnv u nid
        ar cr muts).2.head? =
      some (Call.fetchArticle (keyEnv.getD "") p.id) := by
  constructor
  · simp [annotationHandler]
  · cases ar <;> simp [annotationHandler, annotationFetchStep]

end Omnivore
